import Mathlib

/-!
Shallow embedding of the tag-browsing dialog component
(src/src/components/TagsDialog.tsx) and of the design-token theme
(src/src/index.css) of the shadow-cinema-search repository.

The component state mirrors the five useState hooks of TagsDialog.
Event handlers become pure state-transition functions; emitted callback
invocations and console diagnostics are returned explicitly as lists.
JavaScript string primitives used by the component are modelled over
List Char: String.prototype.includes becomes charsInclude, and
String.prototype.replace with a string pattern (which replaces only the
FIRST occurrence, anywhere in the string) becomes listReplaceFirst.
-/

/-- TagItem mirrors the TagsDialog interface: a display name and an
absolute URL. -/
structure TagItem where
  name : String
  url : String
deriving DecidableEq, Repr

/-- ComponentState collects the five useState hooks of TagsDialog:
tags, filteredTags, searchTerm, isOpen, isLoading. -/
structure ComponentState where
  tags : List TagItem
  filteredTags : List TagItem
  searchTerm : String
  isOpen : Bool
  isLoading : Bool
deriving DecidableEq, Repr

/-- Model of JavaScript String.prototype.includes over lists of
characters: charsInclude pat s decides whether pat occurs as a
contiguous substring of s (an empty pattern always occurs). -/
def charsInclude (pat : List Char) : List Char → Bool
  | [] => pat.isPrefixOf []
  | c :: rest => pat.isPrefixOf (c :: rest) || charsInclude pat rest

/-- Model of JavaScript String.prototype.toLowerCase over lists of
characters (ASCII case mapping, which covers the tag data). -/
def lowerChars (l : List Char) : List Char :=
  l.map Char.toLower

/-- Model of JavaScript String.prototype.trim over lists of characters:
whitespace is removed from both ends. -/
def trimChars (l : List Char) : List Char :=
  ((l.dropWhile Char.isWhitespace).reverse.dropWhile Char.isWhitespace).reverse

/-- The per-tag test of the filter useEffect:
tag.name.toLowerCase().includes(searchTerm.toLowerCase()), with the
UNTRIMMED search term as the pattern. -/
def nameMatches (tag : TagItem) (searchTerm : String) : Bool :=
  charsInclude (lowerChars searchTerm.toList) (lowerChars tag.name.toList)

/-- The visible-set computation of the filter useEffect of TagsDialog:
if searchTerm.trim() is empty the whole catalog is kept, otherwise the
catalog is filtered by case-insensitive substring match of the
(untrimmed) search term against each tag name. -/
def visibleSet (tags : List TagItem) (searchTerm : String) : List TagItem :=
  if trimChars searchTerm.toList = [] then tags
  else tags.filter fun tag => nameMatches tag searchTerm

/-- The filter useEffect as a state transition: it recomputes
filteredTags from tags and searchTerm and touches nothing else. -/
def applyFilter (s : ComponentState) : ComponentState :=
  { s with filteredTags := visibleSet s.tags s.searchTerm }

/-- Model of JavaScript String.prototype.replace with a string pattern
over lists of characters: only the first occurrence of pat (anywhere in
the string) is replaced by repl; if pat does not occur the string is
returned unchanged. -/
def listReplaceFirst (pat repl : List Char) : List Char → List Char
  | [] => if pat.isPrefixOf [] then repl ++ List.drop pat.length [] else []
  | c :: rest =>
      if pat.isPrefixOf (c :: rest) then repl ++ List.drop pat.length (c :: rest)
      else c :: listReplaceFirst pat repl rest

/-- The fixed origin string removed by handleTagClick. -/
def bestsimilarOrigin : String := "https://bestsimilar.com"

/-- The path derivation of handleTagClick:
tag.url.replace of the origin string by the empty string. -/
def tagPath (url : String) : String :=
  String.mk (listReplaceFirst bestsimilarOrigin.toList [] url.toList)

/-- handleTagClick of TagsDialog: emits one onTagSelect invocation with
the derived path and the tag name, closes the dialog and clears the
search term. The second component is the list of emitted
(path, name) callback invocations. -/
def handleTagClick (s : ComponentState) (tag : TagItem) :
    ComponentState × List (String × String) :=
  ({ s with isOpen := false, searchTerm := "" }, [(tagPath tag.url, tag.name)])

/-- The onOpenChange handler of the Dialog element: it is setIsOpen, so
it only stores the new open flag and touches no other state. -/
def onOpenChange (s : ComponentState) (b : Bool) : ComponentState :=
  { s with isOpen := b }

/-- Outcome of the awaited fetch of /tags.json as observed by loadTags:
a successful response whose body decoded to a list of tags, a non-ok
response, or a thrown error (network failure or decode failure). -/
inductive FetchOutcome where
  | success (data : List TagItem)
  | httpFailure
  | fetchThrow
deriving DecidableEq, Repr

/-- FetchOutcome.isSuccess is true exactly on a successful decoded
response. -/
def FetchOutcome.isSuccess : FetchOutcome → Bool
  | .success _ => true
  | _ => false

/-- The first statement of loadTags: setIsLoading(true). -/
def loadTagsStart (s : ComponentState) : ComponentState :=
  { s with isLoading := true }

/-- The try block of loadTags: on an ok response assign the decoded
data to tags and filteredTags; on a non-ok response log a diagnostic;
a thrown fetch or decode error escapes the block as Except.error. -/
def loadTagsTry (s : ComponentState) :
    FetchOutcome → Except String (ComponentState × List String)
  | .success data => .ok ({ s with tags := data, filteredTags := data }, [])
  | .httpFailure => .ok (s, ["Failed to load tags"])
  | .fetchThrow => .error "Error loading tags:"

/-- The whole loadTags body: setIsLoading(true), the try block, a catch
clause logging the error, and a finally clause doing
setIsLoading(false). Total: no exception propagates out. The second
component is the list of console.error diagnostics emitted. -/
def loadTags (s : ComponentState) (r : FetchOutcome) :
    ComponentState × List String :=
  let s1 := loadTagsStart s
  let res :=
    match loadTagsTry s1 r with
    | .ok out => out
    | .error msg => (s1, [msg])
  ({ res.1 with isLoading := false }, res.2)

/-- Value of a CSS custom property of src/src/index.css: either a
hue/saturation/lightness triple, stored in TENTHS (84.2 percent is
encoded as 842) so that the decimal components of the source stay in
Nat, or a raw non-color value such as the radius length. -/
inductive TokenValue where
  | hsl (h s l : Nat)
  | raw (v : String)
deriving DecidableEq, Repr

/-- The design tokens of the default profile, the colon-root block of
src/src/index.css, in source order, HSL components in tenths. -/
def rootTokens : List (String × TokenValue) :=
  [("--background", .hsl 0 0 0),
   ("--foreground", .hsl 0 0 1000),
   ("--card", .hsl 0 0 60),
   ("--card-foreground", .hsl 0 0 950),
   ("--popover", .hsl 0 0 60),
   ("--popover-foreground", .hsl 0 0 950),
   ("--primary", .hsl 2170 910 600),
   ("--primary-foreground", .hsl 0 0 1000),
   ("--secondary", .hsl 0 0 120),
   ("--secondary-foreground", .hsl 0 0 850),
   ("--muted", .hsl 0 0 120),
   ("--muted-foreground", .hsl 0 0 600),
   ("--accent", .hsl 0 0 120),
   ("--accent-foreground", .hsl 0 0 850),
   ("--destructive", .hsl 0 842 602),
   ("--destructive-foreground", .hsl 0 0 980),
   ("--border", .hsl 0 0 200),
   ("--input", .hsl 0 0 200),
   ("--ring", .hsl 2170 910 600),
   ("--radius", .raw "0.75rem"),
   ("--sidebar-background", .hsl 0 0 60),
   ("--sidebar-foreground", .hsl 0 0 850),
   ("--sidebar-primary", .hsl 2170 910 600),
   ("--sidebar-primary-foreground", .hsl 0 0 1000),
   ("--sidebar-accent", .hsl 0 0 120),
   ("--sidebar-accent-foreground", .hsl 0 0 850),
   ("--sidebar-border", .hsl 0 0 150),
   ("--sidebar-ring", .hsl 2170 910 600)]

/-- The design tokens of the alternate profile, the dot-dark block of
src/src/index.css, in source order, HSL components in tenths. -/
def darkTokens : List (String × TokenValue) :=
  [("--background", .hsl 0 0 0),
   ("--foreground", .hsl 0 0 1000),
   ("--card", .hsl 0 0 60),
   ("--card-foreground", .hsl 0 0 950),
   ("--popover", .hsl 0 0 60),
   ("--popover-foreground", .hsl 0 0 950),
   ("--primary", .hsl 2170 910 600),
   ("--primary-foreground", .hsl 0 0 1000),
   ("--secondary", .hsl 0 0 120),
   ("--secondary-foreground", .hsl 0 0 850),
   ("--muted", .hsl 0 0 120),
   ("--muted-foreground", .hsl 0 0 600),
   ("--accent", .hsl 0 0 120),
   ("--accent-foreground", .hsl 0 0 850),
   ("--destructive", .hsl 0 628 306),
   ("--destructive-foreground", .hsl 0 0 980),
   ("--border", .hsl 0 0 200),
   ("--input", .hsl 0 0 200),
   ("--ring", .hsl 2170 910 600),
   ("--sidebar-background", .hsl 0 0 60),
   ("--sidebar-foreground", .hsl 0 0 850),
   ("--sidebar-primary", .hsl 2170 910 600),
   ("--sidebar-primary-foreground", .hsl 0 0 1000),
   ("--sidebar-accent", .hsl 0 0 120),
   ("--sidebar-accent-foreground", .hsl 0 0 850),
   ("--sidebar-border", .hsl 0 0 150),
   ("--sidebar-ring", .hsl 2170 910 600)]

/-- Demonstration tags used by concrete witness instances, taken from
the scenarios of the specification. -/
def actionTag : TagItem :=
  { name := "Action", url := "https://bestsimilar.com/tag/action" }

/-- Demonstration tag Drama from the scenarios of the specification. -/
def dramaTag : TagItem :=
  { name := "Drama", url := "https://bestsimilar.com/tag/drama" }

/-- Demonstration state: dialog open with search term dra typed. -/
def dismissedState : ComponentState :=
  { tags := [actionTag, dramaTag], filteredTags := [dramaTag],
    searchTerm := "dra", isOpen := true, isLoading := false }

/-- Demonstration state: dialog open after a successful earlier load of
one tag, no search term, not loading. -/
def preloadedState : ComponentState :=
  { tags := [actionTag], filteredTags := [actionTag],
    searchTerm := "", isOpen := true, isLoading := false }

/-- A URL that does not start with the bestsimilar origin but contains
it later. -/
def mixedUrl : String := "https://other.com/r?u=https://bestsimilar.com/x"

/-- A URL containing the bestsimilar origin twice, once as a prefix. -/
def doubleUrl : String := "https://bestsimilar.com/r?u=https://bestsimilar.com/x"

/-- When the pattern is a prefix of the string, first-occurrence
replacement replaces exactly that leading occurrence. -/
theorem listReplaceFirst_of_isPrefixOf (pat repl s : List Char)
    (h : pat.isPrefixOf s = true) :
    listReplaceFirst pat repl s = repl ++ s.drop pat.length := by
  cases s with
  | nil => simp [listReplaceFirst, h]
  | cons c rest => simp [listReplaceFirst, h]

/-- When the pattern occurs nowhere in the string, first-occurrence
replacement is the identity. -/
theorem listReplaceFirst_of_not_contains (pat repl s : List Char)
    (h : charsInclude pat s = false) : listReplaceFirst pat repl s = s := by
  induction s with
  | nil =>
    simp only [charsInclude] at h
    simp [listReplaceFirst, h]
  | cons c rest ih =>
    simp only [charsInclude, Bool.or_eq_false_iff] at h
    simp [listReplaceFirst, h.1, ih h.2]

/-- Claim C1 (counterexample): the claim says that for every url that
does not start with the literal origin the derived path equals the full
url unchanged; mixedUrl does not start with the origin, yet tagPath
changes it, because String.prototype.replace removes the FIRST
occurrence anywhere, not only a leading one. -/
theorem claim_C1_counterexample :
    (bestsimilarOrigin.toList.isPrefixOf mixedUrl.toList) = false ∧
    (tagPath mixedUrl == mixedUrl) = false ∧
    tagPath mixedUrl = "https://other.com/r?u=/x" := by
  refine ⟨by decide, by decide, by decide⟩

/-- Claim C1 (amended): the Selection Dispatcher derives the path by
removing the first occurrence of the origin string anywhere in the url;
when the url starts with the origin this strips exactly that leading
origin, and when the url contains the origin nowhere the url is passed
through unchanged. -/
theorem claim_C1 (url : String) :
    (bestsimilarOrigin.toList.isPrefixOf url.toList = true →
      tagPath url = String.mk (url.toList.drop bestsimilarOrigin.toList.length)) ∧
    (charsInclude bestsimilarOrigin.toList url.toList = false →
      tagPath url = url) := by
  constructor
  · intro h
    unfold tagPath
    rw [listReplaceFirst_of_isPrefixOf _ _ _ h]
    simp
  · intro h
    unfold tagPath
    rw [listReplaceFirst_of_not_contains _ _ _ h]
    cases url
    rfl

/-- Claim C1 (witness): the amended theorem applied to the two URLs of
the specification scenarios. -/
theorem claim_C1_witness :
    tagPath "https://bestsimilar.com/tag/foo" = "/tag/foo" ∧
    tagPath "https://other.com/x" = "https://other.com/x" := by
  constructor
  · exact ((claim_C1 "https://bestsimilar.com/tag/foo").1 (by decide)).trans (by decide)
  · exact (claim_C1 "https://other.com/x").2 (by decide)

/-- Claim C8: the path derivation removes exactly the first occurrence
of the origin string wherever it appears: mixedUrl does not begin with
the origin yet is altered, and in doubleUrl only the leading occurrence
is removed while the second occurrence survives. -/
theorem claim_C8 :
    tagPath mixedUrl = "https://other.com/r?u=/x" ∧
    (tagPath mixedUrl == mixedUrl) = false ∧
    (bestsimilarOrigin.toList.isPrefixOf mixedUrl.toList) = false ∧
    tagPath doubleUrl = "/r?u=https://bestsimilar.com/x" := by
  refine ⟨by decide, by decide, by decide, by decide⟩

/-- Claim C2: the visible set equals the catalog when the query trims
to empty, otherwise it is exactly the order-preserving filter of the
catalog by case-insensitive substring match of the query against the
tag names; it is always a sublist of the catalog and the empty catalog
yields the empty visible set. -/
theorem claim_C2 (c : List TagItem) (q : String) :
    (trimChars q.toList = [] → visibleSet c q = c) ∧
    (trimChars q.toList ≠ [] →
      visibleSet c q = c.filter fun t => nameMatches t q) ∧
    List.Sublist (visibleSet c q) c ∧
    visibleSet ([] : List TagItem) q = [] := by
  refine ⟨fun h => by simp only [visibleSet]; rw [if_pos h],
    fun h => by simp only [visibleSet]; rw [if_neg h], ?_, ?_⟩
  · by_cases h : trimChars q.toList = []
    · simp only [visibleSet]
      rw [if_pos h]
    · simp only [visibleSet]
      rw [if_neg h]
      exact List.filter_sublist c
  · by_cases h : trimChars q.toList = []
    · simp only [visibleSet]
      rw [if_pos h]
    · simp only [visibleSet]
      rw [if_neg h]
      rfl

/-- Claim C2 (witness): a whitespace-only query keeps the whole
two-element catalog, and the query dra keeps exactly the Drama tag. -/
theorem claim_C2_witness :
    visibleSet [actionTag, dramaTag] "   " = [actionTag, dramaTag] ∧
    visibleSet [actionTag, dramaTag] "dra" = [dramaTag] := by
  constructor
  · exact (claim_C2 [actionTag, dramaTag] "   ").1 (by decide)
  · exact ((claim_C2 [actionTag, dramaTag] "dra").2.1 (by decide)).trans (by decide)

/-- Claim C10: for a query whose trimmed form is non-empty, the filter
matches the UNTRIMMED lowercased query against the lowercased names
(nameMatches lowercases but never trims its pattern), so a query padded
with whitespace fails to match a name lacking that whitespace. -/
theorem claim_C10 (c : List TagItem) (q : String)
    (h : trimChars q.toList ≠ []) :
    visibleSet c q = c.filter fun t => nameMatches t q := by
  simp only [visibleSet]
  rw [if_neg h]

/-- Claim C10 (witness): the padded query dra-with-spaces trims
non-empty yet selects nothing from the catalog holding Drama. -/
theorem claim_C10_witness :
    visibleSet [dramaTag] " dra " = [] :=
  (claim_C10 [dramaTag] " dra " (by decide)).trans (by decide)

/-- Claim C3: a click on a tag emits exactly one onTagSelect invocation
carrying the derived path and the tag name, closes the dialog and
resets the query to the empty string, whatever the prior state was. -/
theorem claim_C3 (s : ComponentState) (tag : TagItem) :
    (handleTagClick s tag).2 = [(tagPath tag.url, tag.name)] ∧
    (handleTagClick s tag).2.length = 1 ∧
    (handleTagClick s tag).1.isOpen = false ∧
    (handleTagClick s tag).1.searchTerm = "" :=
  ⟨rfl, rfl, rfl, rfl⟩

/-- Claim C4 (counterexample): the claim says every open-to-closed
transition resets the query, but dismissal goes through onOpenChange,
which only stores the open flag: from dismissedState the dialog closes
while the query stays dra, so the search term persists across opens. -/
theorem claim_C4_counterexample :
    dismissedState.isOpen = true ∧
    (onOpenChange dismissedState false).isOpen = false ∧
    (onOpenChange dismissedState false).searchTerm = "dra" ∧
    ((onOpenChange dismissedState false).searchTerm == "") = false := by
  refine ⟨rfl, rfl, rfl, by decide⟩

/-- Claim C4 (amended): the query is reset to empty only when the
dialog closes through a selection (handleTagClick); closing through
dismissal (onOpenChange) leaves the query and the loading flag
unchanged, so the search term persists across opens after a dismissal,
and no close path resets the loading flag (the loader's finally clause
does). -/
theorem claim_C4 (s : ComponentState) (tag : TagItem) (b : Bool) :
    (handleTagClick s tag).1.searchTerm = "" ∧
    (handleTagClick s tag).1.isOpen = false ∧
    (onOpenChange s b).searchTerm = s.searchTerm ∧
    (onOpenChange s b).isLoading = s.isLoading ∧
    (handleTagClick s tag).1.isLoading = s.isLoading :=
  ⟨rfl, rfl, rfl, rfl, rfl⟩

/-- Claim C5 (counterexample): the claim says a failed load leaves the
catalog empty, but the loader never clears the catalog on failure: from
preloadedState (one tag already loaded) a non-ok response leaves the
one-element catalog in place, not empty. -/
theorem claim_C5_counterexample :
    (loadTags preloadedState FetchOutcome.httpFailure).1.tags = [actionTag] ∧
    (loadTags preloadedState FetchOutcome.httpFailure).1.tags.isEmpty = false := by
  refine ⟨rfl, by decide⟩

/-- Claim C5 (amended): on a non-success response or a thrown fetch or
decode error the catalog is left unchanged (hence still empty whenever
it was empty before the load, as on first open), a diagnostic is
emitted to the console channel, the loading flag is true while the load
is in flight and false afterwards, and the loader returns normally. -/
theorem claim_C5 (s : ComponentState) (r : FetchOutcome)
    (h : r.isSuccess = false) :
    (loadTags s r).1.tags = s.tags ∧
    (s.tags = [] → (loadTags s r).1.tags = []) ∧
    (loadTags s r).2 ≠ [] ∧
    (loadTagsStart s).isLoading = true ∧
    (loadTags s r).1.isLoading = false := by
  cases r with
  | success data => simp [FetchOutcome.isSuccess] at h
  | httpFailure =>
    exact ⟨rfl, fun he => he, by simp [loadTags, loadTagsTry], rfl, rfl⟩
  | fetchThrow =>
    exact ⟨rfl, fun he => he, by simp [loadTags, loadTagsTry], rfl, rfl⟩

/-- Claim C5 (witness): the amended theorem at preloadedState and a
non-ok response. -/
theorem claim_C5_witness :
    (loadTags preloadedState FetchOutcome.httpFailure).1.isLoading = false :=
  (claim_C5 preloadedState FetchOutcome.httpFailure (by decide)).2.2.2.2

/-- Claim C9: on any load failure the catalog and the visible set keep
their pre-load values, and in particular a failed re-open load after a
successful load retains the previously loaded catalog and visible
set. -/
theorem claim_C9 (s : ComponentState) (data : List TagItem)
    (r : FetchOutcome) (h : r.isSuccess = false) :
    (loadTags s r).1.tags = s.tags ∧
    (loadTags s r).1.filteredTags = s.filteredTags ∧
    (loadTags (loadTags s (FetchOutcome.success data)).1 r).1.tags = data ∧
    (loadTags (loadTags s (FetchOutcome.success data)).1 r).1.filteredTags
      = data := by
  cases r with
  | success d => simp [FetchOutcome.isSuccess] at h
  | httpFailure => exact ⟨rfl, rfl, rfl, rfl⟩
  | fetchThrow => exact ⟨rfl, rfl, rfl, rfl⟩

/-- Claim C9 (witness): a successful load of Drama followed by a thrown
re-load still shows the Drama catalog. -/
theorem claim_C9_witness :
    (loadTags (loadTags preloadedState (FetchOutcome.success [dramaTag])).1
      FetchOutcome.fetchThrow).1.tags = [dramaTag] :=
  (claim_C9 preloadedState [dramaTag] FetchOutcome.fetchThrow (by decide)).2.2.1

/-- Claim C6: the filter effect is a pure function of catalog and
query: applying it twice equals applying it once, its output is an
order-preserving sublist of the catalog, it keeps the whole catalog
when the query trims to empty, and every kept element matches the
query. -/
theorem claim_C6 (s : ComponentState) :
    applyFilter (applyFilter s) = applyFilter s ∧
    List.Sublist (applyFilter s).filteredTags s.tags ∧
    (trimChars s.searchTerm.toList = [] →
      (applyFilter s).filteredTags = s.tags) ∧
    (∀ t, t ∈ (applyFilter s).filteredTags →
      trimChars s.searchTerm.toList ≠ [] → nameMatches t s.searchTerm = true) := by
  refine ⟨rfl, ?_, ?_, ?_⟩
  · show List.Sublist (visibleSet s.tags s.searchTerm) s.tags
    by_cases h : trimChars s.searchTerm.toList = []
    · simp only [visibleSet]
      rw [if_pos h]
    · simp only [visibleSet]
      rw [if_neg h]
      exact List.filter_sublist s.tags
  · intro h
    show visibleSet s.tags s.searchTerm = s.tags
    simp only [visibleSet]
    rw [if_pos h]
  · intro t ht h
    have ht2 : t ∈ s.tags.filter fun tag => nameMatches tag s.searchTerm := by
      have he : (applyFilter s).filteredTags
          = s.tags.filter fun tag => nameMatches tag s.searchTerm := by
        show visibleSet s.tags s.searchTerm = _
        simp only [visibleSet]
        rw [if_neg h]
      rw [he] at ht
      exact ht
    exact (List.mem_filter.mp ht2).2

/-- Claim C6 (witness): the theorem at dismissedState, whose query dra
trims non-empty and whose visible set holds exactly the Drama tag. -/
theorem claim_C6_witness :
    applyFilter (applyFilter dismissedState) = applyFilter dismissedState ∧
    nameMatches dramaTag "dra" = true :=
  ⟨(claim_C6 dismissedState).1,
    (claim_C6 dismissedState).2.2.2 dramaTag (by decide) (by decide)⟩

/-- Claim C7 (counterexample): the claim says both style profiles
define the same token names and that the destructive values differ only
in lightness; in fact the radius token exists only in the default
profile, and the destructive saturations (84.2 versus 62.8, stored in
tenths) differ as well. -/
theorem claim_C7_counterexample :
    ((rootTokens.map Prod.fst).contains "--radius") = true ∧
    ((darkTokens.map Prod.fst).contains "--radius") = false ∧
    rootTokens.lookup "--destructive" = some (TokenValue.hsl 0 842 602) ∧
    darkTokens.lookup "--destructive" = some (TokenValue.hsl 0 628 306) ∧
    ((842 : Nat) == 628) = false := by
  refine ⟨by decide, by decide, by decide, by decide, by decide⟩

/-- Claim C7 (amended): the two profiles define the same token names
except the radius token, present only in the default profile; every
shared token has an identical value except destructive, which keeps hue
0 in both profiles but differs in saturation (84.2 versus 62.8) and in
lightness (60.2 versus 30.6), components stored in tenths. -/
theorem claim_C7 :
    darkTokens.map Prod.fst = (rootTokens.map Prod.fst).erase "--radius" ∧
    rootTokens.lookup "--radius" = some (TokenValue.raw "0.75rem") ∧
    darkTokens.lookup "--radius" = none ∧
    (darkTokens.all fun p =>
      p.1 == "--destructive" || rootTokens.lookup p.1 == some p.2) = true ∧
    (rootTokens.all fun p =>
      p.1 == "--destructive" || p.1 == "--radius"
        || darkTokens.lookup p.1 == some p.2) = true ∧
    rootTokens.lookup "--destructive" = some (TokenValue.hsl 0 842 602) ∧
    darkTokens.lookup "--destructive" = some (TokenValue.hsl 0 628 306) := by
  refine ⟨by decide, by decide, by decide, by decide, by decide, by decide, by decide⟩
